import Mathlib

/-!
Shallow embedding of the weather aggregation core of `src/main.py`
(vilnius-weather-gui): JSON data model, the HTTP fetcher `_make_request`
with its cache and retry loop, the cache key derivation `_get_cache_key`,
the on-disk response cache `_cache_response` / `_load_cached_response`,
the three source adapters, the aggregator `get_all_weather_data`, and the
report formatter `format_weather_report`.

Python floats are modelled as rationals (ℚ); Python standard-library
functions that the code calls but that are not part of this repository
(`json.dumps`, `json.loads`, `hash(frozenset(..))`) are passed in as
explicit function parameters.
-/

/-- JSON documents as produced by `response.json()` / `json.loads`.
Numbers are modelled as rationals. -/
inductive Json where
  | null
  | bool (b : Bool)
  | num (q : ℚ)
  | str (s : String)
  | arr (elems : List Json)
  | obj (fields : List (String × Json))

/-- Python dict lookup `d.get(key)` on a JSON object's field list
(JSON objects produced by `json.loads` have unique keys, so first match
is the dict lookup). -/
def lookupField (fields : List (String × Json)) (key : String) : Option Json :=
  match fields with
  | [] => none
  | (k, v) :: rest => if k = key then some v else lookupField rest key

/-- Python truthiness of a JSON value (`if data:` / `if result:` /
`if cached_data:`): `None`, `False`, `0`, `""`, `[]`, `{}` are falsy. -/
def jsonTruthy : Json → Bool
  | .null => false
  | .bool b => b
  | .num q => decide (q ≠ 0)
  | .str s => decide (s ≠ "")
  | .arr xs => !xs.isEmpty
  | .obj fs => !fs.isEmpty

/-- Value of a run of decimal digit characters. -/
def digitsVal (cs : List Char) : ℕ :=
  cs.foldl (fun n c => n * 10 + (c.toNat - 48)) 0

/-- Python `float(s)` on a decimal string: optional sign, integer part,
optional fractional part; at least one digit overall.  (Exponent and
inf/nan forms, which none of the providers emit, are not modelled.) -/
def parseFloatStr (s : String) : Option ℚ :=
  let cs := s.trim.toList
  let (sgn, rest) :=
    match cs with
    | '-' :: t => ((-1 : ℚ), t)
    | '+' :: t => ((1 : ℚ), t)
    | t => ((1 : ℚ), t)
  let intPart := rest.takeWhile Char.isDigit
  let afterInt := rest.dropWhile Char.isDigit
  match afterInt with
  | [] =>
      if intPart.isEmpty then none
      else some (sgn * (digitsVal intPart : ℚ))
  | '.' :: fracCs =>
      let fracPart := fracCs.takeWhile Char.isDigit
      if fracCs.dropWhile Char.isDigit ≠ [] then none
      else if intPart.isEmpty ∧ fracPart.isEmpty then none
      else some (sgn * ((digitsVal intPart : ℚ) +
        (digitsVal fracPart : ℚ) / (10 : ℚ) ^ fracPart.length))
  | _ => none

/-- Python `int(s)` on a decimal string: optional sign then digits only. -/
def parseIntStr (s : String) : Option ℤ :=
  let cs := s.trim.toList
  let (sgn, rest) :=
    match cs with
    | '-' :: t => ((-1 : ℤ), t)
    | '+' :: t => ((1 : ℤ), t)
    | t => ((1 : ℤ), t)
  if rest ≠ [] ∧ rest.all Char.isDigit then some (sgn * (digitsVal rest : ℤ))
  else none

/-- Truncation toward zero, as Python `int()` applied to a float. -/
def ratTrunc (q : ℚ) : ℤ := if 0 ≤ q then ⌊q⌋ else ⌈q⌉

/-- Python `float(x)` applied to a value pulled out of parsed JSON.
`none` models the `ValueError`/`TypeError` that the adapters catch. -/
def pyFloat : Json → Option ℚ
  | .num q => some q
  | .bool b => some (if b then 1 else 0)
  | .str s => parseFloatStr s
  | _ => none

/-- Python `int(x)` applied to a value pulled out of parsed JSON.
`none` models the `ValueError`/`TypeError` that the adapters catch. -/
def pyInt : Json → Option ℤ
  | .num q => some (ratTrunc q)
  | .bool b => some (if b then 1 else 0)
  | .str s => parseIntStr s
  | _ => none

/-- `d.get(key, default)` on a JSON object's field list. -/
def lookupFieldD (fields : List (String × Json)) (key : String) (default : Json) : Json :=
  (lookupField fields key).getD default

/-- Upper-case hexadecimal digit. -/
def hexDigit (n : ℕ) : Char :=
  if n < 10 then Char.ofNat (48 + n) else Char.ofNat (55 + n)

/-- Whether `urllib.parse.quote` leaves a byte unescaped when `safe=''`:
ASCII letters, digits, and `_`, `.`, `-`, `~`. -/
def quoteUnescaped (b : UInt8) : Bool :=
  let n := b.toNat
  (48 ≤ n ∧ n ≤ 57) ∨ (65 ≤ n ∧ n ≤ 90) ∨ (97 ≤ n ∧ n ≤ 122) ∨
    n = 95 ∨ n = 46 ∨ n = 45 ∨ n = 126

/-- `urllib.parse.quote(s, safe='')`: percent-encode every UTF-8 byte
except the unescaped set. -/
def pyQuote (s : String) : String :=
  String.join (s.toUTF8.toList.map fun b =>
    if quoteUnescaped b then String.singleton (Char.ofNat b.toNat)
    else String.singleton '%' ++ String.singleton (hexDigit (b.toNat / 16)) ++
      String.singleton (hexDigit (b.toNat % 16)))

/-- The order in which Python's `sorted` arranges `(key, value)` string
pairs: lexicographic tuple comparison. -/
def pairOrder (a b : String × String) : Prop :=
  a.1 < b.1 ∨ (a.1 = b.1 ∧ a.2 ≤ b.2)

instance : DecidableRel pairOrder := fun a b => by
  unfold pairOrder; infer_instance

instance : IsTotal (String × String) pairOrder := by
  constructor
  intro a b
  rcases lt_trichotomy a.1 b.1 with h | h | h
  · exact Or.inl (Or.inl h)
  · rcases le_total a.2 b.2 with h2 | h2
    · exact Or.inl (Or.inr ⟨h, h2⟩)
    · exact Or.inr (Or.inr ⟨h.symm, h2⟩)
  · exact Or.inr (Or.inl h)

instance : IsTrans (String × String) pairOrder := by
  constructor
  rintro a b c (hab | ⟨hab, hab2⟩) (hbc | ⟨hbc, hbc2⟩)
  · exact Or.inl (hab.trans hbc)
  · exact Or.inl (hbc ▸ hab)
  · exact Or.inl (hab ▸ hbc)
  · exact Or.inr ⟨hab.trans hbc, hab2.trans hbc2⟩

instance : IsAntisymm (String × String) pairOrder := by
  constructor
  rintro ⟨a1, a2⟩ ⟨b1, b2⟩ (hab | ⟨hab, hab2⟩) (hba | ⟨hba, hba2⟩)
  · exact absurd (hab.trans hba) (lt_irrefl _)
  · exact absurd hab (hba ▸ lt_irrefl _)
  · exact absurd hba (hab ▸ lt_irrefl _)
  · simp only [Prod.mk.injEq]
    exact ⟨hab, le_antisymm hab2 hba2⟩

/-- `sorted(params.items())`. -/
def sortedParams (params : List (String × String)) : List (String × String) :=
  List.insertionSort pairOrder params

/-- `FreeWeatherAPI._get_cache_key`: URL-only key when the parameter
mapping is absent or empty, otherwise URL plus a hash of the frozenset of
the sorted parameter pairs.  The frozenset hash is a Python-runtime
function of the set of pairs; it is passed in as `hashFn`, applied to the
sorted pair list (which determines the set). -/
def get_cache_key (hashFn : List (String × String) → ℤ) (url : String)
    (params : Option (List (String × String))) : String :=
  match params with
  | none => "cache_" ++ pyQuote url ++ ".json"
  | some [] => "cache_" ++ pyQuote url ++ ".json"
  | some ps => "cache_" ++ pyQuote url ++ "_" ++ toString (hashFn (sortedParams ps)) ++ ".json"

/-- `WeatherAPIConfig.retry_attempts`. -/
def retry_attempts : ℕ := 2

/-- `WeatherAPIConfig.cache_ttl`, in seconds. -/
def cache_ttl : ℚ := 3600

/-- One cached file on disk: its text content and modification time
(`time.time()` values are modelled as rationals). -/
structure FileEntry where
  content : String
  mtime : ℚ

/-- The cache directory's contents: paths mapped to files. -/
abbrev FS := List (String × FileEntry)

/-- Read a file (first match; paths are unique by construction). -/
def FS.getFile (fs : FS) (path : String) : Option FileEntry :=
  match fs with
  | [] => none
  | (p, f) :: rest => if p = path then some f else FS.getFile rest path

/-- `Path.write_text`: create or overwrite, stamping the current time. -/
def FS.setFile (fs : FS) (path : String) (f : FileEntry) : FS :=
  match fs with
  | [] => [(path, f)]
  | (p, g) :: rest => if p = path then (p, f) :: rest else (p, g) :: FS.setFile rest path f

/-- `FreeWeatherAPI._cache_response`: no-op when caching is disabled,
otherwise write `json.dumps(data, indent=2)` to the cache file.  `dumps`
is the standard library's serializer, passed in as a parameter. -/
def cache_response (dumps : Json → String) (enableCache : Bool) (fs : FS)
    (cacheFile : String) (now : ℚ) (data : Json) : FS :=
  if enableCache then fs.setFile cacheFile ⟨dumps data, now⟩ else fs

/-- The guarded `read_text` inside `FreeWeatherAPI._load_cached_response`:
returns the file's bytes only when caching is enabled, the file exists,
and its age `now - mtime` is strictly below the TTL. -/
def load_cached_text (enableCache : Bool) (fs : FS) (cacheFile : String)
    (now : ℚ) : Option String :=
  if !enableCache then none
  else
    match fs.getFile cacheFile with
    | none => none
    | some f => if now - f.mtime < cache_ttl then some f.content else none

/-- `FreeWeatherAPI._load_cached_response`: the guarded read followed by
`json.loads` (passed in as `loads`; a decode failure is caught and
yields `None`). -/
def load_cached_response (loads : String → Option Json) (enableCache : Bool)
    (fs : FS) (cacheFile : String) (now : ℚ) : Option Json :=
  (load_cached_text enableCache fs cacheFile now).bind loads

/-- Outcome of one `session.get` attempt, from the fetcher's point of
view: a decoded JSON body, `requests.exceptions.Timeout`, another
`requests.exceptions.RequestException`, or a JSON decode `ValueError`. -/
inductive ReqOutcome where
  | ok (data : Json)
  | timeout
  | transportError
  | decodeError

/-- The value `_make_request` produces, tagged by the return site: Python
returns the payload on success and `None` on every failure path; the
failure constructors name the distinct `return None` sites (the spec's
`InvalidURL` / `Timeout` / `TransportError` / `DecodeError`). -/
inductive FetchResult where
  | success (data : Json)
  | invalidURL
  | timeoutFail
  | transportFail
  | decodeFail
  | exhausted

/-- Observable behaviour of one `_make_request` call: its result, how
many network attempts (`session.get`) ran, how many `time.sleep(1)`
pauses ran, whether the cache was consulted, and the cache directory
afterwards. -/
structure FetchTrace where
  result : FetchResult
  attempts : ℕ
  sleeps : ℕ
  cacheChecked : Bool
  fs : FS

/-- The `for attempt in range(self.config.retry_attempts)` loop of
`_make_request`, over the list of remaining attempt indices.  `outcomes`
gives each attempt's network outcome.  Returns the result, the number of
attempts performed, the number of 1-second sleeps, and the cache
directory afterwards. -/
def request_loop (dumps : Json → String) (enableCache : Bool)
    (cacheFile : Option String) (now : ℚ) (outcomes : ℕ → ReqOutcome) :
    List ℕ → FS → FetchResult × ℕ × ℕ × FS
  | [], fs => (.exhausted, 0, 0, fs)
  | i :: rest, fs =>
    match outcomes i with
    | .ok d =>
        let fs' :=
          match cacheFile with
          | some p => if enableCache then cache_response dumps enableCache fs p now d else fs
          | none => fs
        (.success d, 1, 0, fs')
    | .timeout =>
        match rest with
        | [] => (.timeoutFail, 1, 0, fs)
        | _ :: _ =>
            let out := request_loop dumps enableCache cacheFile now outcomes rest fs
            (out.1, out.2.1 + 1, out.2.2.1 + 1, out.2.2.2)
    | .transportError => (.transportFail, 1, 0, fs)
    | .decodeError => (.decodeFail, 1, 0, fs)

/-- `FreeWeatherAPI._validate_url`: truthy and scheme-allowlisted.
`startswith` is character-level prefix testing. -/
def validate_url (url : String) : Bool :=
  decide (url ≠ "") &&
    ("http://".toList.isPrefixOf url.toList || "https://".toList.isPrefixOf url.toList)

/-- The cache directory path (`.weather_cache`). -/
def cacheDirPath : String := ".weather_cache"

/-- `FreeWeatherAPI._make_request`: validate the URL, consult the cache
when enabled (a truthy cached document short-circuits the network),
then run the bounded retry loop. -/
def make_request (dumps : Json → String) (loads : String → Option Json)
    (hashFn : List (String × String) → ℤ) (enableCache : Bool) (fs : FS)
    (now : ℚ) (url : String) (params : Option (List (String × String)))
    (outcomes : ℕ → ReqOutcome) : FetchTrace :=
  if !validate_url url then ⟨.invalidURL, 0, 0, false, fs⟩
  else
    let cacheFile : Option String :=
      if enableCache then
        some (cacheDirPath ++ "/" ++ get_cache_key hashFn url params)
      else none
    let cached : Option Json :=
      match cacheFile with
      | some p => load_cached_response loads enableCache fs p now
      | none => none
    let runLoop : FetchTrace :=
      let out := request_loop dumps enableCache cacheFile now outcomes
        (List.range retry_attempts) fs
      ⟨out.1, out.2.1, out.2.2.1, enableCache, out.2.2.2⟩
    match cached with
    | some j => if jsonTruthy j then ⟨.success j, 0, 0, enableCache, fs⟩ else runLoop
    | none => runLoop

/-- `KPH_TO_MPS = 1 / 3.6` (line 27); `3.6` as the rational 36/10. -/
def KPH_TO_MPS : ℚ := 1 / (36 / 10)

/-- The `WeatherData` TypedDict (lines 29-38). -/
structure WeatherData where
  temperature : ℚ
  feels_like : ℚ
  humidity : ℚ
  pressure : ℚ
  wind_speed : ℚ
  wind_direction : ℚ
  description : String
  source : String
  city : String

/-- `FreeWeatherAPI._validate_weather_data`: requires temperature,
description, source and city to be present and non-`None`, and
`float(temperature)` to succeed.  All fields of the model's record are
total and the temperature is already a rational, so the check always
passes. -/
def validate_weather_data (_w : WeatherData) : Bool := true

/-- `self.open_meteo_weather_codes` (lines 69-81), in source order. -/
def open_meteo_weather_codes : List (ℕ × String) :=
  [(0, "Clear sky"), (1, "Mainly clear"), (2, "Partly cloudy"), (3, "Overcast"),
   (45, "Fog"), (48, "Depositing rime fog"),
   (51, "Light drizzle"), (53, "Moderate drizzle"), (55, "Dense drizzle"),
   (56, "Light freezing drizzle"), (57, "Dense freezing drizzle"),
   (61, "Slight rain"), (63, "Moderate rain"), (65, "Heavy rain"),
   (66, "Light freezing rain"), (67, "Heavy freezing rain"),
   (71, "Slight snow fall"), (73, "Moderate snow fall"), (75, "Heavy snow fall"),
   (77, "Snow grains"),
   (80, "Slight rain showers"), (81, "Moderate rain showers"), (82, "Violent rain showers"),
   (85, "Slight snow showers"), (86, "Heavy snow showers"),
   (95, "Thunderstorm"), (96, "Thunderstorm with slight hail"),
   (99, "Thunderstorm with heavy hail")]

/-- Dict lookup in the weather-code table under Python numeric equality
(a float key hits the matching int key). -/
def openMeteoCodeLookup (q : ℚ) : Option String :=
  (open_meteo_weather_codes.find? fun p => decide ((p.1 : ℚ) = q)).map (·.2)

/-- `self.open_meteo_weather_codes.get(weather_code, "Unknown")` where
`weather_code = current.get('weather_code')`: an absent key, `None`, a
string, or an unlisted number all fall to the `"Unknown"` default; an
unhashable value (list/dict) raises `TypeError`, which the adapter
catches — modelled as `none`. -/
def codeDescription (wc : Option Json) : Option String :=
  match wc with
  | none => some "Unknown"
  | some .null => some "Unknown"
  | some (.str _) => some "Unknown"
  | some (.num q) => some ((openMeteoCodeLookup q).getD "Unknown")
  | some (.bool b) => some ((openMeteoCodeLookup (if b then 1 else 0)).getD "Unknown")
  | some (.arr _) => none
  | some (.obj _) => none

/-- `d.get(k)` followed by Python's `is None` test: an absent key and a
JSON `null` value both behave as `None`. -/
def getOrNone (fields : List (String × Json)) (key : String) : Option Json :=
  match lookupField fields key with
  | some .null => none
  | v => v

/-- The body of `get_open_meteo` once the `current` block has been
extracted: temperature guard, code lookup, field conversions with the
source's defaults, and final validation. -/
def openMeteoFromCurrent (city : String) (cf : List (String × Json)) : Option WeatherData :=
  (getOrNone cf "temperature_2m").bind fun tj =>
  (codeDescription (lookupField cf "weather_code")).bind fun desc =>
  (pyFloat tj).bind fun temp =>
  (pyFloat (lookupFieldD cf "apparent_temperature" tj)).bind fun feels =>
  (pyFloat (lookupFieldD cf "relative_humidity_2m" (.num 0))).bind fun hum =>
  (pyFloat (lookupFieldD cf "pressure_msl" (.num 0))).bind fun pres =>
  (pyFloat (lookupFieldD cf "wind_speed_10m" (.num 0))).bind fun wind =>
  (pyFloat (lookupFieldD cf "wind_direction_10m" (.num 0))).bind fun wdir =>
  let w : WeatherData :=
    ⟨temp, feels, hum, pres, wind, wdir, desc, "Open-Meteo", city⟩
  if validate_weather_data w then some w else none

/-- `FreeWeatherAPI.get_open_meteo` (lines 178-217) as a function of the
`_make_request` response: `none` models every path on which the adapter
returns `None` or raises an exception that the aggregator swallows. -/
def get_open_meteo (city : String) (resp : Option Json) : Option WeatherData :=
  resp.bind fun data =>
  if !jsonTruthy data then none
  else
    match data with
    | .obj fields =>
      match lookupField fields "current" with
      | some (.obj cf) => openMeteoFromCurrent city cf
      | _ => none
    | _ => none

/-- `current.get('condition', {}).get('text', 'Unknown')`: a present
non-string `text` (or a non-dict `condition`) is modelled as failure. -/
def conditionText (cond : Json) : Option String :=
  match cond with
  | .obj cf =>
      match lookupFieldD cf "text" (.str "Unknown") with
      | .str s => some s
      | _ => none
  | _ => none

/-- The body of `get_weather_api` once the `current` block has been
extracted, including the km/h → m/s wind conversion. -/
def weatherApiFromCurrent (city : String) (cf : List (String × Json)) : Option WeatherData :=
  (getOrNone cf "temp_c").bind fun tj =>
  (conditionText (lookupFieldD cf "condition" (.obj []))).bind fun desc =>
  (pyFloat tj).bind fun temp =>
  (pyFloat (lookupFieldD cf "feelslike_c" tj)).bind fun feels =>
  (pyFloat (lookupFieldD cf "humidity" (.num 0))).bind fun hum =>
  (pyFloat (lookupFieldD cf "pressure_mb" (.num 0))).bind fun pres =>
  (pyFloat (lookupFieldD cf "wind_kph" (.num 0))).bind fun windKph =>
  (pyFloat (lookupFieldD cf "wind_degree" (.num 0))).bind fun wdir =>
  let w : WeatherData :=
    ⟨temp, feels, hum, pres, windKph * KPH_TO_MPS, wdir,
      desc, "WeatherAPI", city⟩
  if validate_weather_data w then some w else none

/-- `FreeWeatherAPI.get_weather_api` (lines 219-254) as a function of the
`_make_request` response. -/
def get_weather_api (city : String) (resp : Option Json) : Option WeatherData :=
  resp.bind fun data =>
  if !jsonTruthy data then none
  else
    match data with
    | .obj fields =>
      match lookupField fields "current" with
      | some (.obj cf) => weatherApiFromCurrent city cf
      | _ => none
    | _ => none

/-- `current.get('weatherDesc', [{}])[0].get('value', 'Unknown')`. -/
def wttrDescription (wd : Json) : Option String :=
  match wd with
  | .arr (first :: _) =>
      match first with
      | .obj df =>
          match lookupFieldD df "value" (.str "Unknown") with
          | .str s => some s
          | _ => none
      | _ => none
  | _ => none

/-- The body of `get_wttr_in` once the first `current_condition` element
has been extracted.  Humidity, pressure and wind direction go through
`int(..)`; wind speed is converted from km/h to m/s. -/
def wttrFromCurrent (city : String) (cf : List (String × Json)) : Option WeatherData :=
  (getOrNone cf "temp_C").bind fun tj =>
  (wttrDescription (lookupFieldD cf "weatherDesc" (.arr [.obj []]))).bind fun desc =>
  (pyFloat tj).bind fun temp =>
  (pyFloat (lookupFieldD cf "FeelsLikeC" tj)).bind fun feels =>
  (pyInt (lookupFieldD cf "humidity" (.num 0))).bind fun hum =>
  (pyInt (lookupFieldD cf "pressure" (.num 0))).bind fun pres =>
  (pyFloat (lookupFieldD cf "windspeedKmph" (.num 0))).bind fun windKph =>
  (pyInt (lookupFieldD cf "winddirDegree" (.num 0))).bind fun wdir =>
  let w : WeatherData :=
    ⟨temp, feels, (hum : ℚ), (pres : ℚ), windKph * KPH_TO_MPS,
      (wdir : ℚ), desc, "wttr.in", city⟩
  if validate_weather_data w then some w else none

/-- `FreeWeatherAPI.get_wttr_in` (lines 256-288) as a function of the
`_make_request` response. -/
def get_wttr_in (city : String) (resp : Option Json) : Option WeatherData :=
  resp.bind fun data =>
  if !jsonTruthy data then none
  else
    match data with
    | .obj fields =>
      match lookupField fields "current_condition" with
      | none => none
      | some cc =>
        if !jsonTruthy cc then none
        else
          match cc with
          | .arr (.obj cf :: _) => wttrFromCurrent city cf
          | _ => none
    | _ => none

/-- What one adapter call inside `get_all_weather_data` does: returns a
snapshot, returns `None` (a falsy result), or raises an exception that
the surrounding `except Exception: pass` swallows. -/
inductive AdapterOutcome where
  | success (w : WeatherData)
  | failure
  | raised

/-- The `for name, api_func in api_functions` loop of
`get_all_weather_data`: truthy results are stored under the loop's
source name, failures and exceptions contribute nothing. -/
def runAdapters : List (String × AdapterOutcome) → List (String × WeatherData)
  | [] => []
  | (name, o) :: rest =>
    match o with
    | .success w => (name, w) :: runAdapters rest
    | .failure => runAdapters rest
    | .raised => runAdapters rest

/-- `FreeWeatherAPI.get_all_weather_data` (lines 290-309), parameterized
by the outcome of each adapter, invoked in the fixed source order
Open-Meteo, wttr.in, WeatherAPI.  The result is the insertion-ordered
success mapping. -/
def get_all_weather_data (openMeteo wttr weatherApi : AdapterOutcome) :
    List (String × WeatherData) :=
  runAdapters [("Open-Meteo", openMeteo), ("wttr.in", wttr), ("WeatherAPI", weatherApi)]

/-- Round to the nearest integer, ties to even — the rounding of
Python's fixed-point float formatting. -/
def roundHalfEven (q : ℚ) : ℤ :=
  if q - ⌊q⌋ < 1 / 2 then ⌊q⌋
  else if 1 / 2 < q - ⌊q⌋ then ⌊q⌋ + 1
  else if ⌊q⌋ % 2 = 0 then ⌊q⌋ else ⌊q⌋ + 1

/-- Python `f"{x:.1f}"`. -/
def fmtF1 (q : ℚ) : String :=
  let n := roundHalfEven (q * 10)
  (if n < 0 then "-" else "") ++ toString (n.natAbs / 10) ++ "." ++ toString (n.natAbs % 10)

/-- Python `f"{x:.0f}"`. -/
def fmtF0 (q : ℚ) : String :=
  let n := roundHalfEven q
  (if n < 0 then "-" else "") ++ toString n.natAbs

/-- One per-source block of `format_weather_report` (lines 319-341).
The `is not None` guards on feels-like/humidity/pressure/wind always
hold for the model's total record, so every line is rendered. -/
def sourceBlock (source : String) (d : WeatherData) : String :=
  source ++ ":\n" ++
  "  Temperature: " ++ fmtF1 d.temperature ++ "°C\n" ++
  "  Feels like: " ++ fmtF1 d.feels_like ++ "°C\n" ++
  "  Conditions: " ++ d.description ++ "\n" ++
  "  Humidity: " ++ fmtF0 d.humidity ++ "%\n" ++
  "  Pressure: " ++ fmtF0 d.pressure ++ " hPa\n" ++
  "  Wind: " ++ fmtF1 d.wind_speed ++ " m/s\n" ++
  "\n"

/-- The header, generated line and per-source blocks of a non-empty
report (lines 315-341): everything before the two summary lines. -/
def reportIntro (now : String) (results : List (String × WeatherData)) : String :=
  match results with
  | [] => ""
  | (_, d0) :: _ =>
    d0.city ++ " REPORT\n" ++
    String.mk (List.replicate 40 '=') ++ "\n" ++
    "Generated: " ++ now ++ "\n\n" ++
    String.join (results.map fun p => sourceBlock p.1 p.2)

/-- `format_weather_report` (lines 311-350).  `now` stands for the
`datetime.now()` clock reading interpolated into the header. -/
def format_weather_report (now : String) (results : List (String × WeatherData)) : String :=
  match results with
  | [] => "No weather data could be retrieved from any source.\n"
  | _ :: _ =>
    reportIntro now results ++
    (let temps := results.map fun p => p.2.temperature
     if temps.isEmpty then ""
     else "Average Temperature: " ++ fmtF1 (temps.sum / temps.length) ++ "°C\n") ++
    ("Successful sources: " ++ toString results.length ++ "\n")

theorem str_append_assoc (a b c : String) : (a ++ b) ++ c = a ++ (b ++ c) :=
  String.ext (by simp)

/-- The entry one adapter outcome contributes to the aggregation
result. -/
def successEntry (name : String) : AdapterOutcome → List (String × WeatherData)
  | .success w => [(name, w)]
  | .failure => []
  | .raised => []

/-- C1: over the three adapters in the fixed order Open-Meteo, wttr.in,
WeatherAPI, any adapter failure or exception is swallowed: the result
holds exactly the successful adapters' snapshots, each under its loop
source name, and when no adapter succeeds the result is the empty
mapping.  (`get_all_weather_data` is a total function of the three
outcomes, so the aggregation itself never raises.) -/
theorem aggregator_swallows_failures (o1 o2 o3 : AdapterOutcome) :
    (get_all_weather_data o1 o2 o3 =
      successEntry "Open-Meteo" o1 ++ successEntry "wttr.in" o2 ++
        successEntry "WeatherAPI" o3)
    ∧ (((∀ w, o1 ≠ .success w) ∧ (∀ w, o2 ≠ .success w) ∧ (∀ w, o3 ≠ .success w)) →
        get_all_weather_data o1 o2 o3 = []) := by
  constructor
  · cases o1 <;> cases o2 <;> cases o3 <;> rfl
  · rintro ⟨h1, h2, h3⟩
    cases o1 with
    | success w => exact absurd rfl (h1 w)
    | failure =>
      cases o2 with
      | success w => exact absurd rfl (h2 w)
      | failure => cases o3 with
        | success w => exact absurd rfl (h3 w)
        | failure => rfl
        | raised => rfl
      | raised => cases o3 with
        | success w => exact absurd rfl (h3 w)
        | failure => rfl
        | raised => rfl
    | raised =>
      cases o2 with
      | success w => exact absurd rfl (h2 w)
      | failure => cases o3 with
        | success w => exact absurd rfl (h3 w)
        | failure => rfl
        | raised => rfl
      | raised => cases o3 with
        | success w => exact absurd rfl (h3 w)
        | failure => rfl
        | raised => rfl

/-- Witness for C1: all three adapters failing yields the empty
mapping. -/
theorem aggregator_swallows_failures_witness :
    get_all_weather_data .failure .raised .failure = [] :=
  (aggregator_swallows_failures .failure .raised .failure).2
    ⟨fun _ h => AdapterOutcome.noConfusion h,
     fun _ h => AdapterOutcome.noConfusion h,
     fun _ h => AdapterOutcome.noConfusion h⟩

/-- Sorting is permutation-invariant: Python's `sorted` on two
rearrangements of the same pairs yields the same list. -/
theorem sortedParams_perm_eq {ps1 ps2 : List (String × String)}
    (h : ps1.Perm ps2) : sortedParams ps1 = sortedParams ps2 :=
  List.eq_of_perm_of_sorted
    ((List.perm_insertionSort pairOrder ps1).trans
      (h.trans (List.perm_insertionSort pairOrder ps2).symm))
    (List.sorted_insertionSort pairOrder ps1)
    (List.sorted_insertionSort pairOrder ps2)

/-- C3: the cache key is invariant under reordering of the query
parameter pairs, for every frozenset-hash function; and an absent or
empty parameter mapping yields the key derived from the URL alone. -/
theorem cache_key_param_order_irrelevant
    (hashFn : List (String × String) → ℤ) (url : String)
    (ps1 ps2 : List (String × String)) (hperm : ps1.Perm ps2) :
    (get_cache_key hashFn url (some ps1) = get_cache_key hashFn url (some ps2))
    ∧ get_cache_key hashFn url none = "cache_" ++ pyQuote url ++ ".json"
    ∧ get_cache_key hashFn url (some []) = "cache_" ++ pyQuote url ++ ".json" := by
  refine ⟨?_, rfl, rfl⟩
  cases ps1 with
  | nil =>
    have h2 : ps2 = [] := hperm.symm.eq_nil
    subst h2; rfl
  | cons a t =>
    cases ps2 with
    | nil => exact absurd hperm.eq_nil (by simp)
    | cons b u =>
      show "cache_" ++ pyQuote url ++ "_" ++
          toString (hashFn (sortedParams (a :: t))) ++ ".json" = _
      rw [sortedParams_perm_eq hperm]
      rfl

/-- Witness for C3: the Open-Meteo query parameters in two insertion
orders produce the same cache key. -/
theorem cache_key_param_order_irrelevant_witness :
    get_cache_key (fun l => (l.length : ℤ)) "https://api.open-meteo.com/v1/forecast"
        (some [("latitude", "54.6872"), ("longitude", "25.2797")]) =
      get_cache_key (fun l => (l.length : ℤ)) "https://api.open-meteo.com/v1/forecast"
        (some [("longitude", "25.2797"), ("latitude", "54.6872")]) :=
  (cache_key_param_order_irrelevant _ _ _ _ (List.Perm.swap _ _ _)).1

/-- Writing a file makes it readable back unchanged. -/
theorem getFile_setFile (fs : FS) (path : String) (f : FileEntry) :
    (fs.setFile path f).getFile path = some f := by
  induction fs with
  | nil => simp [FS.setFile, FS.getFile]
  | cons hd tl ih =>
    obtain ⟨p, g⟩ := hd
    by_cases h : p = path
    · subst h; simp [FS.setFile, FS.getFile]
    · simp [FS.setFile, FS.getFile, h, ih]

/-- C4: with caching enabled, writing an entry and reading it back while
its age is strictly below the TTL (`cache_ttl = 3600`) returns exactly
the bytes that were written; once the age reaches the TTL the read is a
miss although the file is still present on disk. -/
theorem cache_roundtrip_ttl (dumps : Json → String) (fs : FS) (cacheFile : String)
    (data : Json) (tw tr : ℚ) :
    (tr - tw < cache_ttl →
      load_cached_text true (cache_response dumps true fs cacheFile tw data) cacheFile tr =
        some (dumps data))
    ∧ (cache_ttl ≤ tr - tw →
      load_cached_text true (cache_response dumps true fs cacheFile tw data) cacheFile tr = none
      ∧ (cache_response dumps true fs cacheFile tw data).getFile cacheFile =
          some ⟨dumps data, tw⟩) := by
  have hget : (cache_response dumps true fs cacheFile tw data).getFile cacheFile =
      some ⟨dumps data, tw⟩ := by
    simp [cache_response, getFile_setFile]
  constructor
  · intro hfresh
    simp [load_cached_text, hget, hfresh]
  · intro hstale
    refine ⟨?_, hget⟩
    simp [load_cached_text, hget, not_lt.mpr hstale]

/-- Witness for C4: a write at time 0 is read back byte-identically at
time 10 and is a miss at time 5000. -/
theorem cache_roundtrip_ttl_witness :
    load_cached_text true (cache_response (fun _ => "X") true [] "p" 0 .null) "p" 10 = some "X"
    ∧ load_cached_text true (cache_response (fun _ => "X") true [] "p" 0 .null) "p" 5000 = none :=
  ⟨(cache_roundtrip_ttl (fun _ => "X") [] "p" .null 0 10).1 (by norm_num [cache_ttl]),
   ((cache_roundtrip_ttl (fun _ => "X") [] "p" .null 0 5000).2 (by norm_num [cache_ttl])).1⟩

/-- C9: a URL starting with neither `http://` nor `https://` is rejected
as `invalidURL` before any I/O: zero network attempts, no cache
consultation, and the cache directory is untouched. -/
theorem invalid_url_no_io (dumps : Json → String) (loads : String → Option Json)
    (hashFn : List (String × String) → ℤ) (enableCache : Bool) (fs : FS) (now : ℚ)
    (url : String) (params : Option (List (String × String))) (outcomes : ℕ → ReqOutcome)
    (h1 : "http://".toList.isPrefixOf url.toList = false)
    (h2 : "https://".toList.isPrefixOf url.toList = false) :
    make_request dumps loads hashFn enableCache fs now url params outcomes =
      ⟨.invalidURL, 0, 0, false, fs⟩ := by
  have hv : validate_url url = false := by
    unfold validate_url
    rw [h1, h2]
    simp
  simp [make_request, hv]

/-- Witness for C9: an `ftp://` URL is rejected with no I/O. -/
theorem invalid_url_no_io_witness :
    make_request (fun _ => "") (fun _ => none) (fun _ => 0) true [] 0
      "ftp://example.com" none (fun _ => .ok .null) =
      ⟨.invalidURL, 0, 0, false, []⟩ :=
  invalid_url_no_io _ _ _ _ _ _ _ _ _ (by decide) (by decide)

/-- When the URL is valid and the cache consult does not produce a
truthy document, `_make_request` proceeds to the retry loop over attempt
indices 0 and 1. -/
theorem make_request_runs_loop (dumps : Json → String) (loads : String → Option Json)
    (hashFn : List (String × String) → ℤ) (enableCache : Bool) (fs : FS) (now : ℚ)
    (url : String) (params : Option (List (String × String))) (outcomes : ℕ → ReqOutcome)
    (hurl : validate_url url = true)
    (hmiss : ∀ j, load_cached_response loads enableCache fs
        (cacheDirPath ++ "/" ++ get_cache_key hashFn url params) now = some j →
        jsonTruthy j = false) :
    make_request dumps loads hashFn enableCache fs now url params outcomes =
      (let out := request_loop dumps enableCache
          (if enableCache then
            some (cacheDirPath ++ "/" ++ get_cache_key hashFn url params)
           else none) now outcomes [0, 1] fs
       ⟨out.1, out.2.1, out.2.2.1, enableCache, out.2.2.2⟩) := by
  have hr : List.range retry_attempts = [0, 1] := rfl
  cases enableCache with
  | false => simp [make_request, hurl, hr]
  | true =>
    cases hc : load_cached_response loads true fs
        (cacheDirPath ++ "/" ++ get_cache_key hashFn url params) now with
    | none => simp [make_request, hurl, hc, hr]
    | some j =>
      have hf := hmiss j hc
      simp [make_request, hurl, hc, hf, hr]

/-- C2: for a valid-URL fetch that reaches the network, the fetcher
retries only on timeout: timeout then success returns the payload after
2 attempts and one 1-second pause; two timeouts exhaust the 2-attempt
budget (with one pause) and yield the Timeout failure; any non-timeout
transport or decode failure returns immediately with no further attempt;
and no call makes more than 2 attempts. -/
theorem fetcher_retries_only_on_timeout
    (dumps : Json → String) (loads : String → Option Json)
    (hashFn : List (String × String) → ℤ) (enableCache : Bool) (fs : FS) (now : ℚ)
    (url : String) (params : Option (List (String × String))) (outcomes : ℕ → ReqOutcome)
    (T : FetchTrace)
    (hurl : validate_url url = true)
    (hmiss : ∀ j, load_cached_response loads enableCache fs
        (cacheDirPath ++ "/" ++ get_cache_key hashFn url params) now = some j →
        jsonTruthy j = false)
    (hT : T = make_request dumps loads hashFn enableCache fs now url params outcomes) :
    (∀ d, outcomes 0 = .timeout → outcomes 1 = .ok d →
        T.result = .success d ∧ T.attempts = 2 ∧ T.sleeps = 1)
    ∧ (outcomes 0 = .timeout → outcomes 1 = .timeout →
        T.result = .timeoutFail ∧ T.attempts = 2 ∧ T.sleeps = 1)
    ∧ (outcomes 0 = .transportError →
        T.result = .transportFail ∧ T.attempts = 1 ∧ T.sleeps = 0)
    ∧ (outcomes 0 = .decodeError →
        T.result = .decodeFail ∧ T.attempts = 1 ∧ T.sleeps = 0)
    ∧ (outcomes 0 = .timeout → outcomes 1 = .transportError →
        T.result = .transportFail ∧ T.attempts = 2)
    ∧ (outcomes 0 = .timeout → outcomes 1 = .decodeError →
        T.result = .decodeFail ∧ T.attempts = 2)
    ∧ T.attempts ≤ 2 := by
  have hL := make_request_runs_loop dumps loads hashFn enableCache fs now url params
    outcomes hurl hmiss
  rw [hL] at hT
  subst hT
  refine ⟨?_, ?_, ?_, ?_, ?_, ?_, ?_⟩
  · intro d h0 h1; simp [request_loop, h0, h1]
  · intro h0 h1; simp [request_loop, h0, h1]
  · intro h0; simp [request_loop, h0]
  · intro h0; simp [request_loop, h0]
  · intro h0 h1; simp [request_loop, h0, h1]
  · intro h0 h1; simp [request_loop, h0, h1]
  · cases h0 : outcomes 0 with
    | timeout => cases h1 : outcomes 1 <;> simp [request_loop, h0, h1]
    | ok d => simp [request_loop, h0]
    | transportError => simp [request_loop, h0]
    | decodeError => simp [request_loop, h0]

/-- Witness for C2: with caching off, a timeout on attempt 1 followed by
success on attempt 2 returns the payload after exactly 2 attempts and
one pause. -/
theorem fetcher_retries_only_on_timeout_witness :
    (make_request (fun _ => "") (fun _ => none) (fun _ => 0) false [] 0
        "https://example.com" none
        (fun n => if n = 0 then .timeout else .ok (.num 1))).result =
      .success (.num 1)
    ∧ (make_request (fun _ => "") (fun _ => none) (fun _ => 0) false [] 0
        "https://example.com" none
        (fun n => if n = 0 then .timeout else .ok (.num 1))).attempts = 2
    ∧ (make_request (fun _ => "") (fun _ => none) (fun _ => 0) false [] 0
        "https://example.com" none
        (fun n => if n = 0 then .timeout else .ok (.num 1))).sleeps = 1 :=
  (fetcher_retries_only_on_timeout (fun _ => "") (fun _ => none) (fun _ => 0) false [] 0
      "https://example.com" none (fun n => if n = 0 then .timeout else .ok (.num 1))
      _ (by decide) (fun _ h => Option.noConfusion h) rfl).1 (.num 1) rfl rfl

/-- C10: with caching enabled and a fresh cache entry whose stored JSON
parses to a falsy document, the fetcher still performs a network
attempt; the cache short-circuits the network only when the cached
document is truthy (returning it with zero attempts). -/
theorem cache_falsy_entry_no_short_circuit
    (dumps : Json → String) (loads : String → Option Json)
    (hashFn : List (String × String) → ℤ) (fs : FS) (now : ℚ)
    (url : String) (params : Option (List (String × String))) (outcomes : ℕ → ReqOutcome)
    (T : FetchTrace) (text : String) (j : Json)
    (hurl : validate_url url = true)
    (hT : T = make_request dumps loads hashFn true fs now url params outcomes)
    (htext : load_cached_text true fs
        (cacheDirPath ++ "/" ++ get_cache_key hashFn url params) now = some text)
    (hload : loads text = some j) :
    (jsonTruthy j = false → 1 ≤ T.attempts)
    ∧ (jsonTruthy j = true → T = ⟨.success j, 0, 0, true, fs⟩) := by
  have hcached : load_cached_response loads true fs
      (cacheDirPath ++ "/" ++ get_cache_key hashFn url params) now = some j := by
    simp [load_cached_response, htext, hload]
  constructor
  · intro hfalsy
    have hmiss : ∀ j', load_cached_response loads true fs
        (cacheDirPath ++ "/" ++ get_cache_key hashFn url params) now = some j' →
        jsonTruthy j' = false := by
      intro j' hj'
      rw [hcached] at hj'
      exact Option.some.inj hj' ▸ hfalsy
    have hL := make_request_runs_loop dumps loads hashFn true fs now url params
      outcomes hurl hmiss
    rw [hL] at hT
    subst hT
    cases h0 : outcomes 0 with
    | timeout => cases h1 : outcomes 1 <;> simp [request_loop, h0, h1]
    | ok d => simp [request_loop, h0]
    | transportError => simp [request_loop, h0]
    | decodeError => simp [request_loop, h0]
  · intro htruthy
    subst hT
    simp [make_request, hurl, hcached, htruthy]

/-- Witness for C10: a fresh cache entry holding `{}` does not
short-circuit — a network attempt happens anyway. -/
theorem cache_falsy_entry_no_short_circuit_witness :
    1 ≤ (make_request (fun _ => "")
        (fun s => if s = "\x7b\x7d" then some (.obj []) else none) (fun _ => 0) true
        [(cacheDirPath ++ "/" ++ get_cache_key (fun _ => 0) "https://example.com" none,
          ⟨"\x7b\x7d", 0⟩)]
        0 "https://example.com" none (fun _ => .ok (.num 1))).attempts :=
  (cache_falsy_entry_no_short_circuit (fun _ => "")
      (fun s => if s = "\x7b\x7d" then some (.obj []) else none) (fun _ => 0)
      [(cacheDirPath ++ "/" ++ get_cache_key (fun _ => 0) "https://example.com" none,
        ⟨"\x7b\x7d", 0⟩)]
      0 "https://example.com" none (fun _ => .ok (.num 1)) _ "\x7b\x7d" (.obj [])
      (by decide) rfl
      (by norm_num [load_cached_text, FS.getFile, cache_ttl]) rfl).1 rfl

/-- C6 counterexample: the Open-Meteo weather-code table does not have
38 entries (it has 28). -/
theorem weather_code_table_not_38 : open_meteo_weather_codes.length ≠ 38 := by decide

/-- C6 (amended): the weather-code table has exactly 28 known codes, and
a numeric weather code outside the table yields the literal "Unknown"
description while the adapter still returns a snapshot. -/
theorem weather_code_table_unknown (city : String) (t code : ℚ)
    (hn : openMeteoCodeLookup code = none) :
    open_meteo_weather_codes.length = 28 ∧
    get_open_meteo city (some (.obj [("current",
        .obj [("temperature_2m", .num t), ("weather_code", .num code)])])) =
      some ⟨t, t, 0, 0, 0, 0, "Unknown", "Open-Meteo", city⟩ := by
  refine ⟨rfl, ?_⟩
  simp [get_open_meteo, openMeteoFromCurrent, jsonTruthy, lookupField, getOrNone,
    lookupFieldD, codeDescription, hn, pyFloat, validate_weather_data]

/-- Witness for C6: code 42 is unknown, yet a full snapshot with
description "Unknown" is produced. -/
theorem weather_code_table_unknown_witness :
    get_open_meteo "Vilnius" (some (.obj [("current",
        .obj [("temperature_2m", .num 1), ("weather_code", .num 42)])])) =
      some ⟨1, 1, 0, 0, 0, 0, "Unknown", "Open-Meteo", "Vilnius"⟩ :=
  (weather_code_table_unknown "Vilnius" 1 42 (by decide)).2

/-- C7: the Open-Meteo adapter fails hard (no snapshot) on a missing
response, a missing top-level `current` block, or a missing temperature
field; when a snapshot is produced, omitted humidity, pressure or wind
fields yield 0 and an omitted feels-like field yields the raw
temperature. -/
theorem open_meteo_missing_fields (city : String) (fields cf : List (String × Json)) :
    (get_open_meteo city none = none)
    ∧ (lookupField fields "current" = none →
        get_open_meteo city (some (.obj fields)) = none)
    ∧ (lookupField fields "current" = some (.obj cf) →
        lookupField cf "temperature_2m" = none →
        get_open_meteo city (some (.obj fields)) = none)
    ∧ (∀ w, lookupField fields "current" = some (.obj cf) →
        get_open_meteo city (some (.obj fields)) = some w →
        (lookupField cf "relative_humidity_2m" = none → w.humidity = 0)
        ∧ (lookupField cf "pressure_msl" = none → w.pressure = 0)
        ∧ (lookupField cf "wind_speed_10m" = none → w.wind_speed = 0)
        ∧ (lookupField cf "apparent_temperature" = none → w.feels_like = w.temperature)) := by
  refine ⟨rfl, ?_, ?_, ?_⟩
  · intro h
    cases ht : jsonTruthy (Json.obj fields) with
    | false => simp [get_open_meteo, ht]
    | true => simp [get_open_meteo, ht, h]
  · intro hcur htmp
    have hnone : getOrNone cf "temperature_2m" = none := by
      simp [getOrNone, htmp]
    cases ht : jsonTruthy (Json.obj fields) with
    | false => simp [get_open_meteo, ht]
    | true => simp [get_open_meteo, ht, hcur, openMeteoFromCurrent, hnone]
  · intro w hcur hw
    have ht : jsonTruthy (Json.obj fields) = true := by
      cases fields with
      | nil => simp [lookupField] at hcur
      | cons a rest => simp [jsonTruthy]
    have hw2 : openMeteoFromCurrent city cf = some w := by
      simpa [get_open_meteo, ht, hcur] using hw
    simp only [openMeteoFromCurrent, Option.bind_eq_some] at hw2
    obtain ⟨tj, htj, desc, hdesc, temp, htemp, feels, hfeels, hum, hhum, pres, hpres,
      wind, hwind, wdir, hwdir, hfin⟩ := hw2
    simp only [validate_weather_data, if_true] at hfin
    obtain rfl := Option.some.inj hfin
    refine ⟨?_, ?_, ?_, ?_⟩
    · intro hab
      simp [lookupFieldD, hab, pyFloat] at hhum
      exact hhum.symm
    · intro hab
      simp [lookupFieldD, hab, pyFloat] at hpres
      exact hpres.symm
    · intro hab
      simp [lookupFieldD, hab, pyFloat] at hwind
      exact hwind.symm
    · intro hab
      simp [lookupFieldD, hab] at hfeels
      rw [htemp] at hfeels
      exact (Option.some.inj hfeels).symm

/-- Witness for C7: a response without `current` yields no snapshot, and
a snapshot built from a temperature-only `current` block has humidity
0. -/
theorem open_meteo_missing_fields_witness :
    get_open_meteo "V" (some (.obj [("other", .null)])) = none
    ∧ (⟨7, 7, 0, 0, 0, 0, "Unknown", "Open-Meteo", "V"⟩ : WeatherData).humidity = 0 :=
  ⟨(open_meteo_missing_fields "V" [("other", .null)] []).2.1 rfl,
   ((open_meteo_missing_fields "V" [("current", .obj [("temperature_2m", .num 7)])]
       [("temperature_2m", .num 7)]).2.2.2 _ rfl rfl).1 rfl⟩

/-- C5: the WeatherAPI and wttr.in adapters convert provider wind speeds
from km/h to m/s by multiplying with `KPH_TO_MPS` (1/3.6); in particular
36 km/h normalizes to 10 m/s within ±0.05. -/
theorem wind_kph_to_mps (city : String) (fields cf : List (String × Json)) (v : ℚ) :
    (∀ w, lookupField fields "current" = some (.obj cf) →
        lookupField cf "wind_kph" = some (.num v) →
        get_weather_api city (some (.obj fields)) = some w →
        w.wind_speed = v * KPH_TO_MPS)
    ∧ (∀ w rest jv, lookupField fields "current_condition" = some (.arr (.obj cf :: rest)) →
        lookupField cf "windspeedKmph" = some jv → pyFloat jv = some v →
        get_wttr_in city (some (.obj fields)) = some w →
        w.wind_speed = v * KPH_TO_MPS)
    ∧ (∀ w, lookupField fields "current" = some (.obj cf) →
        lookupField cf "wind_kph" = some (.num 36) →
        get_weather_api city (some (.obj fields)) = some w →
        |w.wind_speed - 10| ≤ 5 / 100) := by
  have main : ∀ (u : ℚ) w, lookupField fields "current" = some (.obj cf) →
      lookupField cf "wind_kph" = some (.num u) →
      get_weather_api city (some (.obj fields)) = some w →
      w.wind_speed = u * KPH_TO_MPS := by
    intro u w hcur hwind hw
    have ht : jsonTruthy (Json.obj fields) = true := by
      cases fields with
      | nil => simp [lookupField] at hcur
      | cons a rest => simp [jsonTruthy]
    have hw2 : weatherApiFromCurrent city cf = some w := by
      simpa [get_weather_api, ht, hcur] using hw
    simp only [weatherApiFromCurrent, Option.bind_eq_some] at hw2
    obtain ⟨tj, htj, desc, hdesc, temp, htemp, feels, hfeels, hum, hhum, pres, hpres,
      windKph, hwind2, wdir, hwdir, hfin⟩ := hw2
    simp only [validate_weather_data, if_true] at hfin
    obtain rfl := Option.some.inj hfin
    simp [lookupFieldD, hwind, pyFloat] at hwind2
    simp [hwind2]
  refine ⟨fun w hc hv hg => main v w hc hv hg, ?_, fun w hc hv hg => ?_⟩
  · intro w rest jv hcc hwind hpf hw
    have ht : jsonTruthy (Json.obj fields) = true := by
      cases fields with
      | nil => simp [lookupField] at hcc
      | cons a rest2 => simp [jsonTruthy]
    have htc : jsonTruthy (Json.arr (Json.obj cf :: rest)) = true := by
      simp [jsonTruthy]
    have hw2 : wttrFromCurrent city cf = some w := by
      simpa [get_wttr_in, ht, hcc, htc] using hw
    simp only [wttrFromCurrent, Option.bind_eq_some] at hw2
    obtain ⟨tj, htj, desc, hdesc, temp, htemp, feels, hfeels, hum, hhum, pres, hpres,
      windKph, hwind2, wdir, hwdir, hfin⟩ := hw2
    simp only [validate_weather_data, if_true] at hfin
    obtain rfl := Option.some.inj hfin
    simp [lookupFieldD, hwind, hpf] at hwind2
    simp [hwind2]
  · have h10 := main 36 w hc hv hg
    rw [h10]
    norm_num [KPH_TO_MPS]

/-- Witness for C5: a WeatherAPI response reporting 36 km/h produces a
snapshot whose wind speed is 36·(1/3.6) m/s, within ±0.05 of 10. -/
theorem wind_kph_to_mps_witness :
    (get_weather_api "V" (some (.obj [("current",
        .obj [("temp_c", .num 5), ("wind_kph", .num 36)])]))).map
        (fun w => w.wind_speed) = some (36 * KPH_TO_MPS)
    ∧ |36 * KPH_TO_MPS - (10 : ℚ)| ≤ 5 / 100 := by
  have hw : get_weather_api "V" (some (.obj [("current",
      .obj [("temp_c", .num 5), ("wind_kph", .num 36)])])) =
      some ⟨5, 5, 0, 0, 36 * KPH_TO_MPS, 0, "Unknown", "WeatherAPI", "V"⟩ := rfl
  constructor
  · rw [hw]
    exact congrArg some
      ((wind_kph_to_mps "V"
          [("current", .obj [("temp_c", .num 5), ("wind_kph", .num 36)])]
          [("temp_c", .num 5), ("wind_kph", .num 36)] 36).1
        ⟨5, 5, 0, 0, 36 * KPH_TO_MPS, 0, "Unknown", "WeatherAPI", "V"⟩ rfl rfl hw)
  · exact (wind_kph_to_mps "V"
        [("current", .obj [("temp_c", .num 5), ("wind_kph", .num 36)])]
        [("temp_c", .num 5), ("wind_kph", .num 36)] 36).2.2
      ⟨5, 5, 0, 0, 36 * KPH_TO_MPS, 0, "Unknown", "WeatherAPI", "V"⟩ rfl rfl hw

/-- C8: for every non-empty aggregation result the report ends with the
arithmetic mean of the entries' temperatures rendered at one decimal
place and a "Successful sources" count equal to the number of
entries. -/
theorem formatter_average_and_count (now : String) (results : List (String × WeatherData))
    (h : results ≠ []) :
    format_weather_report now results =
      reportIntro now results ++
        ("Average Temperature: " ++
          fmtF1 ((results.map fun r => r.2.temperature).sum / (results.length : ℚ)) ++
          "°C\n") ++
        ("Successful sources: " ++ toString results.length ++ "\n") := by
  cases results with
  | nil => exact absurd rfl h
  | cons r rs =>
    simp [format_weather_report, List.length_map]

/-- Two snapshots at 10 °C and 20 °C for the formatter witness. -/
def exResults : List (String × WeatherData) :=
  [("Open-Meteo", ⟨10, 10, 50, 1000, 3, 90, "Clear sky", "Open-Meteo", "Vilnius"⟩),
   ("wttr.in", ⟨20, 20, 60, 1010, 4, 180, "Overcast", "wttr.in", "Vilnius"⟩)]

/-- Witness for C8: temperatures 10 °C and 20 °C render an average of
exactly "15.0°C" and a source count of 2. -/
theorem formatter_average_and_count_witness :
    format_weather_report "2024-01-01 00:00:00" exResults =
      reportIntro "2024-01-01 00:00:00" exResults ++
        ("Average Temperature: " ++ "15.0" ++ "°C\n") ++
        ("Successful sources: " ++ "2" ++ "\n") := by
  have h := formatter_average_and_count "2024-01-01 00:00:00" exResults (by simp [exResults])
  rw [h]
  have havg : ((exResults.map fun r => r.2.temperature).sum / (exResults.length : ℚ)) = 15 := by
    simp [exResults]
    norm_num
  rw [havg]
  have h150 : (15 : ℚ) * 10 = 150 := by norm_num
  have hf : fmtF1 15 = "15.0" := by
    simp only [fmtF1, h150]
    norm_num [roundHalfEven]
    rfl
  rw [hf]
  rfl
